import Mathlib

/-!
Shallow embedding of the cross-page selection model of `src/App.tsx`.

The React component keeps five pieces of state that matter to the
selection model:

* `artworks`        — the ids of the currently visible page (an ordered list);
* `selectedItems`   — the included set (JS `Set<number>`);
* `unselectedItems` — the excluded set (JS `Set<number>`);
* `selectedCount`   — the bulk-selection target (a JS number: it is set from
                      `parseInt`, so it can be `NaN`, zero or negative);
* `currentPage`     — the page index.

JS `Set` is modelled as `Finset Nat` (membership, insertion, deletion and
size are the only operations the component uses — iteration order is never
observed on the sets themselves, only on the `artworks` list).  JS numbers
reaching `selectedCount` are modelled by `JSNum`: either `NaN` or an
integer.  Each event handler of the component becomes a pure function on
`AppState`; the auto-select `useEffect` (App.tsx lines 73–92) becomes
`autoFillEffect`, and an operation "completing" means the handler ran and
the effect was re-evaluated afterwards (`applyOp`).
-/

namespace ArtworkSelection

/-- A JS number as it can reach `selectedCount`: `parseInt` yields either
`NaN` or an integer. -/
inductive JSNum where
  | nan : JSNum
  | num : Int → JSNum
deriving DecidableEq, Repr

/-- JS falsiness of a number: `!x` is true exactly for `NaN` and `0`
(`selectedCount` never holds `-0` distinct from `0` in the model). -/
def jsFalsy : JSNum → Bool
  | .nan => true
  | .num n => n == 0

/-- The JS comparison `c >= target` where `c` is a set size (a genuine
natural number) and `target` may be `NaN`; any comparison with `NaN` is
false. -/
def jsGe (c : Nat) : JSNum → Bool
  | .nan => false
  | .num n => decide ((c : Int) ≥ n)

/-- The component state relevant to the selection model. -/
structure AppState where
  artworks : List Nat
  selectedItems : Finset Nat
  unselectedItems : Finset Nat
  selectedCount : JSNum
  currentPage : Nat
deriving DecidableEq

/-- The initial state: empty page, empty sets, no target, page 1. -/
def initState : AppState :=
  { artworks := [], selectedItems := ∅, unselectedItems := ∅,
    selectedCount := JSNum.num 0, currentPage := 1 }

/-- `handleRowSelect` (App.tsx 99–109): add the id to `selectedItems`,
delete it from `unselectedItems`, and set `selectedCount` to the size of
the updated selected set. -/
def handleRowSelect (id : Nat) (s : AppState) : AppState :=
  { s with
    selectedItems := insert id s.selectedItems,
    unselectedItems := s.unselectedItems.erase id,
    selectedCount := JSNum.num (insert id s.selectedItems).card }

/-- `handleRowUnselect` (App.tsx 111–121): delete the id from
`selectedItems`, add it to `unselectedItems`, and set `selectedCount` to
the size of the updated selected set. -/
def handleRowUnselect (id : Nat) (s : AppState) : AppState :=
  { s with
    selectedItems := s.selectedItems.erase id,
    unselectedItems := insert id s.unselectedItems,
    selectedCount := JSNum.num (s.selectedItems.erase id).card }

/-- One iteration of the `artworks.forEach` body shared by
`handleSelectionChange` (App.tsx 128–136) and the header checkbox
`onChange` (App.tsx 180–188): `pick id` tells whether this visible id is
to be selected (`currentlySelected.has(artwork.id)` respectively
`e.checked`). -/
def assignStep (pick : Nat → Bool) (q : Finset Nat × Finset Nat) (id : Nat) :
    Finset Nat × Finset Nat :=
  if pick id then (insert id q.1, q.2.erase id)
  else (q.1.erase id, insert id q.2)

/-- The whole `artworks.forEach` walk over the visible ids, threading the
pair (newSelectedIds, newUnselectedIds). -/
def assignPage (pick : Nat → Bool) (ids : List Nat)
    (p : Finset Nat × Finset Nat) : Finset Nat × Finset Nat :=
  ids.foldl (assignStep pick) p

/-- `handleSelectionChange` (App.tsx 123–141): for every visible id, move
it into `selectedItems` when it is in the event's value set, otherwise
into `unselectedItems`; then set `selectedCount` to the new selected
size. -/
def handleSelectionChange (value : Finset Nat) (s : AppState) : AppState :=
  { s with
    selectedItems :=
      (assignPage (fun id => decide (id ∈ value)) s.artworks
        (s.selectedItems, s.unselectedItems)).1,
    unselectedItems :=
      (assignPage (fun id => decide (id ∈ value)) s.artworks
        (s.selectedItems, s.unselectedItems)).2,
    selectedCount :=
      JSNum.num (assignPage (fun id => decide (id ∈ value)) s.artworks
        (s.selectedItems, s.unselectedItems)).1.card }

/-- The header checkbox `onChange` (App.tsx 176–193): every visible id is
moved into `selectedItems` when the box was checked, into
`unselectedItems` otherwise; then `selectedCount` is set to the new
selected size. -/
def headerToggle (checked : Bool) (s : AppState) : AppState :=
  { s with
    selectedItems :=
      (assignPage (fun _ => checked) s.artworks
        (s.selectedItems, s.unselectedItems)).1,
    unselectedItems :=
      (assignPage (fun _ => checked) s.artworks
        (s.selectedItems, s.unselectedItems)).2,
    selectedCount :=
      JSNum.num (assignPage (fun _ => checked) s.artworks
        (s.selectedItems, s.unselectedItems)).1.card }

/-- `handleSubmitSelection` (App.tsx 143–152), taking the already-parsed
input value (`parseInt` of the text field, which may be `NaN`): clear both
sets, store the parsed target in `selectedCount`, and go back to page 1. -/
def handleSubmitSelection (parsed : JSNum) (s : AppState) : AppState :=
  { s with selectedItems := ∅, unselectedItems := ∅,
           selectedCount := parsed, currentPage := 1 }

/-- `resetSelections` (App.tsx 154–163): clear both sets and the target. -/
def resetSelections (s : AppState) : AppState :=
  { s with selectedItems := ∅, unselectedItems := ∅,
           selectedCount := JSNum.num 0 }

/-- The `for (const id of availableIds)` loop of the auto-select effect
(App.tsx 82–90): walk the visible ids in order; each id in neither set is
added to the selected set and the running counter is incremented; the walk
breaks as soon as the counter reaches the target. `unsel` is the (never
mutated) excluded set, `c` the running `currentlySelected` counter. -/
def autoFillLoop (unsel : Finset Nat) (target : JSNum) :
    List Nat → Finset Nat → Nat → Finset Nat
  | [], sel, _ => sel
  | id :: rest, sel, c =>
    if id ∉ sel ∧ id ∉ unsel then
      if jsGe (c + 1) target then insert id sel
      else autoFillLoop unsel target rest (insert id sel) (c + 1)
    else autoFillLoop unsel target rest sel c

/-- The auto-select `useEffect` (App.tsx 73–92): return unchanged when
`selectedCount` is falsy or the current selected size already reaches the
target; otherwise fill `selectedItems` from the visible ids. -/
def autoFillEffect (s : AppState) : AppState :=
  if jsFalsy s.selectedCount then s
  else if jsGe s.selectedItems.card s.selectedCount then s
  else
    { s with selectedItems :=
        (autoFillLoop s.unselectedItems s.selectedCount s.artworks
          s.selectedItems s.selectedItems.card) }

/-- The operations that mutate the selection state: the four manual edits,
the bulk-target submission, the reset, and the arrival of a fetched page
(`setArtworks` in `loadArtworks`, App.tsx 57). -/
inductive Op where
  | rowSelect (id : Nat)
  | rowUnselect (id : Nat)
  | selectionChange (value : Finset Nat)
  | headerCheckbox (checked : Bool)
  | submitSelection (parsed : JSNum)
  | reset
  | deliverPage (ids : List Nat)
deriving DecidableEq

/-- Dispatch an operation to its handler. -/
def applyHandler : Op → AppState → AppState
  | .rowSelect id, s => handleRowSelect id s
  | .rowUnselect id, s => handleRowUnselect id s
  | .selectionChange value, s => handleSelectionChange value s
  | .headerCheckbox checked, s => headerToggle checked s
  | .submitSelection parsed, s => handleSubmitSelection parsed s
  | .reset, s => resetSelections s
  | .deliverPage ids, s => { s with artworks := ids }

/-- An operation "completes" once its handler ran and the auto-select
effect was re-evaluated on the new state (the effect's dependency list is
`[artworks, selectedCount, selectedItems, unselectedItems]`, so it re-runs
after every one of these operations). -/
def applyOp (op : Op) (s : AppState) : AppState :=
  autoFillEffect (applyHandler op s)

/-- Run a whole sequence of operations from a state. -/
def run (ops : List Op) (s : AppState) : AppState :=
  ops.foldl (fun s op => applyOp op s) s

/-- The visible page `[1..12]` used by the spec's bulk-fill scenarios. -/
def pageOne : List Nat := [1, 2, 3, 4, 5, 6, 7, 8, 9, 10, 11, 12]

/-- The visible page `[13..24]` used by the spec's bulk-fill scenario. -/
def pageTwo : List Nat := [13, 14, 15, 16, 17, 18, 19, 20, 21, 22, 23, 24]

/-! ### Disjointness of the two sets -/

theorem disjoint_insert_erase {sel unsel : Finset Nat} (id : Nat)
    (h : Disjoint sel unsel) :
    Disjoint (insert id sel) (unsel.erase id) :=
  Finset.disjoint_insert_left.2
    ⟨Finset.not_mem_erase _ _,
     Finset.disjoint_of_subset_right (Finset.erase_subset _ _) h⟩

theorem disjoint_erase_insert_self {sel unsel : Finset Nat} (id : Nat)
    (h : Disjoint sel unsel) :
    Disjoint (sel.erase id) (insert id unsel) :=
  Finset.disjoint_insert_right.2
    ⟨Finset.not_mem_erase _ _,
     Finset.disjoint_of_subset_left (Finset.erase_subset _ _) h⟩

theorem assignStep_disjoint (pick : Nat → Bool) (q : Finset Nat × Finset Nat)
    (id : Nat) (h : Disjoint q.1 q.2) :
    Disjoint (assignStep pick q id).1 (assignStep pick q id).2 := by
  unfold assignStep
  split
  · exact disjoint_insert_erase id h
  · exact disjoint_erase_insert_self id h

theorem assignPage_disjoint (pick : Nat → Bool) (ids : List Nat) :
    ∀ p : Finset Nat × Finset Nat, Disjoint p.1 p.2 →
      Disjoint (assignPage pick ids p).1 (assignPage pick ids p).2 := by
  induction ids with
  | nil => intro p h; exact h
  | cons id rest ih =>
    intro p h
    have : assignPage pick (id :: rest) p
        = assignPage pick rest (assignStep pick p id) := rfl
    rw [this]
    exact ih _ (assignStep_disjoint pick p id h)

theorem autoFillLoop_disjoint (unsel : Finset Nat) (target : JSNum)
    (l : List Nat) :
    ∀ (sel : Finset Nat) (c : Nat), Disjoint sel unsel →
      Disjoint (autoFillLoop unsel target l sel c) unsel := by
  induction l with
  | nil => intro sel c h; exact h
  | cons id rest ih =>
    intro sel c h
    unfold autoFillLoop
    split
    · next hcond =>
      have hins : Disjoint (insert id sel) unsel :=
        Finset.disjoint_insert_left.2 ⟨hcond.2, h⟩
      split
      · exact hins
      · exact ih _ _ hins
    · exact ih _ _ h

theorem autoFillEffect_disjoint (s : AppState)
    (h : Disjoint s.selectedItems s.unselectedItems) :
    Disjoint (autoFillEffect s).selectedItems (autoFillEffect s).unselectedItems := by
  unfold autoFillEffect
  split
  · exact h
  · split
    · exact h
    · exact autoFillLoop_disjoint _ _ _ _ _ h

theorem applyHandler_disjoint (op : Op) (s : AppState)
    (h : Disjoint s.selectedItems s.unselectedItems) :
    Disjoint (applyHandler op s).selectedItems (applyHandler op s).unselectedItems := by
  cases op with
  | rowSelect id => exact disjoint_insert_erase id h
  | rowUnselect id => exact disjoint_erase_insert_self id h
  | selectionChange value => exact assignPage_disjoint _ _ _ h
  | headerCheckbox checked => exact assignPage_disjoint _ _ _ h
  | submitSelection parsed => exact Finset.disjoint_empty_left _
  | reset => exact Finset.disjoint_empty_left _
  | deliverPage ids => exact h

theorem applyOp_disjoint (op : Op) (s : AppState)
    (h : Disjoint s.selectedItems s.unselectedItems) :
    Disjoint (applyOp op s).selectedItems (applyOp op s).unselectedItems :=
  autoFillEffect_disjoint _ (applyHandler_disjoint op s h)

theorem run_disjoint_of_disjoint (ops : List Op) :
    ∀ s : AppState, Disjoint s.selectedItems s.unselectedItems →
      Disjoint (run ops s).selectedItems (run ops s).unselectedItems := by
  induction ops with
  | nil => intro s h; exact h
  | cons op rest ih =>
    intro s h
    exact ih _ (applyOp_disjoint op s h)

/-- C1: for every sequence of operations (row select/unselect, page-level
selection change, header-checkbox toggle, bulk target submission, reset,
page delivery — each followed by the auto-select effect), the included set
`selectedItems` and the excluded set `unselectedItems` of the resulting
state are disjoint: no id is ever in both. -/
theorem included_excluded_disjoint (ops : List Op) :
    Disjoint (run ops initState).selectedItems
      (run ops initState).unselectedItems :=
  run_disjoint_of_disjoint ops initState (Finset.disjoint_empty_left _)

/-! ### The auto-select effect is a no-op once the target is met -/

/-- When `selectedCount` already equals the selected size, the auto-select
effect returns the state unchanged (either the count is `0` and falsy, or
the `>=` guard fires). -/
theorem autoFillEffect_of_count_eq (s : AppState)
    (h : s.selectedCount = JSNum.num s.selectedItems.card) :
    autoFillEffect s = s := by
  unfold autoFillEffect
  rw [h]
  by_cases h0 : s.selectedItems.card = 0
  · simp [jsFalsy, h0]
  · simp [jsFalsy, jsGe, h0]

/-- C2: from the empty model, submitting the bulk target 15 and then
receiving visible pages `[1..12]` and `[13..24]` in order, with no manual
edits, leaves the included set equal to `{1,...,15}`, of size 15. -/
theorem bulk_fill_fifteen :
    (run [Op.submitSelection (JSNum.num 15), Op.deliverPage pageOne,
        Op.deliverPage pageTwo] initState).selectedItems = Finset.Icc 1 15
    ∧ (run [Op.submitSelection (JSNum.num 15), Op.deliverPage pageOne,
        Op.deliverPage pageTwo] initState).selectedItems.card = 15 := by
  constructor
  · decide
  · decide

/-- C5: submitting the bulk target 5 with the single visible page `[1..12]`
yields included set `{1,2,3,4,5}` (the walk stops as soon as the count
reaches the target), and re-running the auto-select effect on the
resulting state with the same page is a no-op: the state is unchanged. -/
theorem fill_saturation :
    (run [Op.submitSelection (JSNum.num 5), Op.deliverPage pageOne]
        initState).selectedItems = {1, 2, 3, 4, 5}
    ∧ autoFillEffect (run [Op.submitSelection (JSNum.num 5),
        Op.deliverPage pageOne] initState)
      = run [Op.submitSelection (JSNum.num 5), Op.deliverPage pageOne]
          initState := by
  constructor
  · decide
  · decide

/-- C9: after every manual edit — a row select, a row unselect, a
page-level selection change, or a header-checkbox toggle — the code
overwrites `selectedCount` with the new size of the included set, so the
bulk target is exactly satisfied and the auto-select effect, re-run on the
new state, changes nothing. -/
theorem manual_edit_pins_target (s : AppState) (id : Nat)
    (value : Finset Nat) (checked : Bool) :
    ((handleRowSelect id s).selectedCount
        = JSNum.num (handleRowSelect id s).selectedItems.card
      ∧ autoFillEffect (handleRowSelect id s) = handleRowSelect id s)
    ∧ ((handleRowUnselect id s).selectedCount
        = JSNum.num (handleRowUnselect id s).selectedItems.card
      ∧ autoFillEffect (handleRowUnselect id s) = handleRowUnselect id s)
    ∧ ((handleSelectionChange value s).selectedCount
        = JSNum.num (handleSelectionChange value s).selectedItems.card
      ∧ autoFillEffect (handleSelectionChange value s)
          = handleSelectionChange value s)
    ∧ ((headerToggle checked s).selectedCount
        = JSNum.num (headerToggle checked s).selectedItems.card
      ∧ autoFillEffect (headerToggle checked s) = headerToggle checked s) :=
  ⟨⟨rfl, autoFillEffect_of_count_eq _ rfl⟩,
   ⟨rfl, autoFillEffect_of_count_eq _ rfl⟩,
   ⟨rfl, autoFillEffect_of_count_eq _ rfl⟩,
   ⟨rfl, autoFillEffect_of_count_eq _ rfl⟩⟩

/-! ### Per-record toggles and the target count -/

/-- A concrete state with an outstanding bulk target of 5 and nothing yet
selected, visible page `[1,2,3]`. -/
def exState3 : AppState :=
  { artworks := [1, 2, 3], selectedItems := ∅, unselectedItems := ∅,
    selectedCount := JSNum.num 5, currentPage := 1 }

/-- C3 counterexample: `handleRowSelect` does NOT leave `selectedCount`
unchanged — selecting row 1 in a state whose target is 5 overwrites the
target with the new included size 1. -/
theorem toggle_overwrites_target_cex :
    (handleRowSelect 1 exState3).selectedCount ≠ exState3.selectedCount := by
  decide

/-- C3 as amended: the per-record toggles move the id between the two sets
as claimed, but `selectedCount` is overwritten with the size of the
updated included set rather than left unchanged. -/
theorem toggle_moves_and_overwrites_target (id : Nat) (s : AppState) :
    (handleRowSelect id s).selectedItems = insert id s.selectedItems
    ∧ (handleRowSelect id s).unselectedItems = s.unselectedItems.erase id
    ∧ (handleRowSelect id s).selectedCount
        = JSNum.num (insert id s.selectedItems).card
    ∧ (handleRowUnselect id s).selectedItems = s.selectedItems.erase id
    ∧ (handleRowUnselect id s).unselectedItems = insert id s.unselectedItems
    ∧ (handleRowUnselect id s).selectedCount
        = JSNum.num (s.selectedItems.erase id).card :=
  ⟨rfl, rfl, rfl, rfl, rfl, rfl⟩

/-! ### Deselecting at the target does not trigger a re-fill -/

/-- A concrete state at its target: included `{1,2,3}`, target 3, visible
page `[1..12]` with undecided ids 4..12 available. -/
def exState4 : AppState :=
  { artworks := pageOne, selectedItems := {1, 2, 3}, unselectedItems := ∅,
    selectedCount := JSNum.num 3, currentPage := 1 }

/-- C4 counterexample: with included `{1,2,3}`, target 3 and visible page
`[1..12]`, deselecting id 3 leaves included size 2 — not restored to 3 —
and the undecided id 4 on the same page is NOT auto-selected: the
auto-select engine does not re-run, because the deselect handler
overwrote the target with the new count. -/
theorem deselect_no_refill_cex :
    (applyOp (Op.rowUnselect 3) exState4).selectedItems.card = 2
    ∧ (applyOp (Op.rowUnselect 3) exState4).selectedItems.card ≠ 3
    ∧ 4 ∉ (applyOp (Op.rowUnselect 3) exState4).selectedItems := by
  refine ⟨by decide, by decide, by decide⟩

/-- C4 as amended: deselecting an id while `count() == targetCount`
overwrites `targetCount` with the decremented count, so the auto-select
effect does not re-run to pick a replacement: the included set is exactly
the old included set minus the id, its size dropped by one, and the stored
target now equals that smaller size. -/
theorem deselect_at_target_no_refill (s : AppState) (id : Nat)
    (hmem : id ∈ s.selectedItems)
    (htgt : s.selectedCount = JSNum.num s.selectedItems.card) :
    (applyOp (Op.rowUnselect id) s).selectedItems = s.selectedItems.erase id
    ∧ (applyOp (Op.rowUnselect id) s).selectedItems.card + 1
        = s.selectedItems.card
    ∧ (applyOp (Op.rowUnselect id) s).selectedCount
        = JSNum.num (s.selectedItems.erase id).card := by
  have heff : applyOp (Op.rowUnselect id) s = handleRowUnselect id s :=
    autoFillEffect_of_count_eq _ rfl
  rw [heff]
  exact ⟨rfl, Finset.card_erase_add_one hmem, rfl⟩

/-- Witness for C4's amended theorem at the concrete state `exState4`. -/
theorem deselect_at_target_no_refill_witness :
    (applyOp (Op.rowUnselect 3) exState4).selectedItems
        = exState4.selectedItems.erase 3
    ∧ (applyOp (Op.rowUnselect 3) exState4).selectedItems.card + 1
        = exState4.selectedItems.card
    ∧ (applyOp (Op.rowUnselect 3) exState4).selectedCount
        = JSNum.num (exState4.selectedItems.erase 3).card :=
  deselect_at_target_no_refill exState4 3 (by decide) (by decide)

/-! ### Invalid bulk targets cause no mutation -/

/-- C10: when the submitted bulk-target input parses to `NaN`, zero or a
negative number, the auto-select effect performs no mutation on the state
left by the submission: for `NaN` and `0` the falsiness guard returns
immediately, and for a negative target the `count >= target` guard does. -/
theorem invalid_target_no_mutation (s : AppState) (parsed : JSNum)
    (h : parsed = JSNum.nan ∨ ∃ n : Int, n ≤ 0 ∧ parsed = JSNum.num n) :
    autoFillEffect (handleSubmitSelection parsed s)
      = handleSubmitSelection parsed s := by
  rcases h with h | ⟨n, hn, h⟩
  · subst h; rfl
  · subst h
    by_cases h0 : n = 0
    · subst h0; rfl
    · unfold autoFillEffect
      have hfalsy : jsFalsy (handleSubmitSelection (JSNum.num n) s).selectedCount
          = false := by
        simp [handleSubmitSelection, jsFalsy, h0]
      have hge : jsGe (handleSubmitSelection (JSNum.num n) s).selectedItems.card
          (handleSubmitSelection (JSNum.num n) s).selectedCount = true := by
        simp only [handleSubmitSelection, jsGe]
        simp
        omega
      rw [hfalsy, hge]
      simp

/-- Witness for C10 at the concrete parsed value `-3` and the initial
state. -/
theorem invalid_target_no_mutation_witness :
    autoFillEffect (handleSubmitSelection (JSNum.num (-3)) initState)
      = handleSubmitSelection (JSNum.num (-3)) initState :=
  invalid_target_no_mutation initState (JSNum.num (-3))
    (Or.inr ⟨-3, by decide, rfl⟩)

/-! ### The header checkbox and the read-side projections -/

/-- `currentPageItemIds` (App.tsx 166): the ids of the visible page. -/
def currentPageItemIds (s : AppState) : List Nat := s.artworks

/-- `selectedOnCurrentPage` (App.tsx 167–169): the visible ids that are in
`selectedItems` and not in `unselectedItems`. -/
def selectedOnCurrentPage (s : AppState) : List Nat :=
  (currentPageItemIds s).filter
    (fun id => decide (id ∈ s.selectedItems ∧ id ∉ s.unselectedItems))

/-- `areAllCurrentPageItemsSelected` (App.tsx 170): the boolean fed to the
header checkbox's `checked` prop — true when every visible id is
effectively selected and the page is non-empty. -/
def areAllCurrentPageItemsSelected (s : AppState) : Bool :=
  (selectedOnCurrentPage s).length == (currentPageItemIds s).length
    && decide ((currentPageItemIds s).length > 0)

/-- `getSelectedArtworks` (App.tsx 204–208): the visible rows that are in
`selectedItems` and not in `unselectedItems`; its length is what the
"Selected Items" label displays (App.tsx 235) and what the table receives
as its selection. -/
def getSelectedArtworks (s : AppState) : List Nat :=
  s.artworks.filter
    (fun id => decide (id ∈ s.selectedItems ∧ id ∉ s.unselectedItems))

/-- The tri-state header indicator named by the spec. `mixed` is the
spec's third, partial state (some but not all visible ids selected). -/
inductive HeaderState where
  | all : HeaderState
  | noneSel : HeaderState
  | mixed : HeaderState
deriving DecidableEq, Repr

/-- Modelled from the spec: `headerState(visibleIds)` of the
VisibilityProjector — `ALL` if every visible id is selected and the page
is non-empty; `NONE` if none is selected or the page is empty; the
partial state (`mixed`) otherwise.  The code has no such tri-state
function; this definition follows the spec's words, to be compared with
the code's boolean `areAllCurrentPageItemsSelected`. -/
def headerStateSpec (s : AppState) : HeaderState :=
  if s.artworks ≠ [] ∧ ∀ id ∈ s.artworks, id ∈ s.selectedItems then
    HeaderState.all
  else if (∀ id ∈ s.artworks, id ∉ s.selectedItems) ∨ s.artworks = [] then
    HeaderState.noneSel
  else HeaderState.mixed

/-- Visible page `[1,2,3]`, nothing selected: the spec's `NONE` case. -/
def exHeaderNone : AppState :=
  { artworks := [1, 2, 3], selectedItems := ∅, unselectedItems := ∅,
    selectedCount := JSNum.num 0, currentPage := 1 }

/-- Visible page `[1,2,3]`, only id 1 selected: the spec's partial case. -/
def exHeaderMixed : AppState :=
  { artworks := [1, 2, 3], selectedItems := {1}, unselectedItems := ∅,
    selectedCount := JSNum.num 1, currentPage := 1 }

/-- C6 counterexample: the code's header indicator is the single boolean
`areAllCurrentPageItemsSelected`; on the page `[1,2,3]` it takes the very
same value (false) in a state the spec classifies `NONE` (nothing
selected) and in a state the spec classifies partial (only id 1 selected),
so the rendered header cannot be `PARTIAL` in one case and `NONE` in the
other: the code exposes no tri-state. -/
theorem header_no_tristate_cex :
    headerStateSpec exHeaderNone = HeaderState.noneSel
    ∧ headerStateSpec exHeaderMixed = HeaderState.mixed
    ∧ headerStateSpec exHeaderNone ≠ headerStateSpec exHeaderMixed
    ∧ areAllCurrentPageItemsSelected exHeaderNone
        = areAllCurrentPageItemsSelected exHeaderMixed := by
  refine ⟨by decide, by decide, by decide, by decide⟩

/-- C6 as amended: the header indicator is two-valued — the checkbox is
checked exactly when every visible id is effectively selected (in
`selectedItems` and not in `unselectedItems`) and the page is non-empty;
in every other case, including the some-but-not-all case, it renders the
same unchecked state. -/
theorem header_checked_iff_all (s : AppState) :
    areAllCurrentPageItemsSelected s = true ↔
      (s.artworks ≠ [] ∧
        ∀ id ∈ s.artworks, id ∈ s.selectedItems ∧ id ∉ s.unselectedItems) := by
  unfold areAllCurrentPageItemsSelected selectedOnCurrentPage currentPageItemIds
  rw [Bool.and_eq_true, beq_iff_eq, decide_eq_true_iff,
    List.filter_length_eq_length]
  constructor
  · rintro ⟨hall, hpos⟩
    refine ⟨List.length_pos.mp hpos, fun id hid => ?_⟩
    simpa using hall id hid
  · rintro ⟨hne, hall⟩
    exact ⟨fun id hid => by simpa using hall id hid, List.length_pos.mpr hne⟩

/-! ### The displayed selection count is page-local -/

/-- A concrete state after bulk-filling 15 ids and paging to `[13..24]`:
included is `{1,...,15}` but only 13, 14, 15 are visible. -/
def exState7 : AppState :=
  { artworks := pageTwo, selectedItems := Finset.Icc 1 15,
    unselectedItems := ∅, selectedCount := JSNum.num 15, currentPage := 2 }

/-- C7 counterexample: with included `{1,...,15}` and visible page
`[13..24]`, the "Selected Items" display — the length of
`getSelectedArtworks` — shows 3, not the included size 15: the exposed
count is not `|included|`. -/
theorem count_shows_visible_only_cex :
    (getSelectedArtworks exState7).length = 3
    ∧ exState7.selectedItems.card = 15
    ∧ (getSelectedArtworks exState7).length ≠ exState7.selectedItems.card := by
  refine ⟨by decide, by decide, by decide⟩

/-- C7 as amended: the count the rendering layer sees is page-local — on a
duplicate-free visible page it equals the size of
`(included \ excluded) ∩ visible`, the number of currently visible
selected rows, not the size of the whole included set. -/
theorem displayed_count_visible_only (s : AppState)
    (h : s.artworks.Nodup) :
    (getSelectedArtworks s).length
      = ((s.selectedItems \ s.unselectedItems) ∩ s.artworks.toFinset).card := by
  unfold getSelectedArtworks
  rw [← List.toFinset_card_of_nodup (h.filter _), List.toFinset_filter]
  congr 1
  ext id
  simp only [Finset.mem_filter, List.mem_toFinset, decide_eq_true_iff,
    Finset.mem_inter, Finset.mem_sdiff]
  tauto

/-- Witness for C7's amended theorem at the concrete state `exState7`. -/
theorem displayed_count_visible_only_witness :
    (getSelectedArtworks exState7).length
      = ((exState7.selectedItems \ exState7.unselectedItems)
          ∩ exState7.artworks.toFinset).card :=
  displayed_count_visible_only exState7 (by decide)

/-! ### Stale fetch responses are not discarded -/

/-- A fetch-related event on the single event loop: a request is issued
for a page, or a response for a page resolves carrying its ids.
Resolution order is the order the events appear in. -/
inductive NetEvent where
  | issue (page : Nat)
  | resolve (page : Nat) (ids : List Nat)
deriving DecidableEq, Repr

/-- The fetch-visible state: the page most recently requested, the visible
ids, and which page's payload they came from. -/
structure NetState where
  lastIssued : Option Nat
  visibleIds : List Nat
  visibleOrigin : Option Nat
deriving DecidableEq, Repr

/-- No request issued, nothing visible. -/
def netInit : NetState := { lastIssued := none, visibleIds := [], visibleOrigin := none }

/-- `loadArtworks` (App.tsx 38–66) as written: issuing a request records
the requested page (`setCurrentPage` / the fetch call), and a resolving
response is applied unconditionally — `setArtworks(processedArtworks)`
carries no sequence number and no staleness check, so every response
overwrites the visible page in resolution order. -/
def netStep (s : NetState) : NetEvent → NetState
  | .issue p => { s with lastIssued := some p }
  | .resolve p ids => { s with visibleIds := ids, visibleOrigin := some p }

/-- Run a sequence of fetch events from the initial state. -/
def netRun (evs : List NetEvent) : NetState :=
  evs.foldl netStep netInit

/-- The interleaving that exposes the race: a fetch for page 2 is issued,
then a fetch for page 1; page 1's response resolves first and page 2's
stale response resolves last. -/
def staleTrace : List NetEvent :=
  [NetEvent.issue 2, NetEvent.issue 1,
   NetEvent.resolve 1 [1, 2, 3], NetEvent.resolve 2 [13, 14, 15]]

/-- C8: the code carries no sequence number and applies every response, so
on `staleTrace` the final visible page is page 2's payload although page 1
was the most recently issued request — the stale response is not
discarded, contradicting the claimed sequence-number discipline. -/
theorem stale_response_overwrites :
    (netRun staleTrace).lastIssued = some 1
    ∧ (netRun staleTrace).visibleOrigin = some 2
    ∧ (netRun staleTrace).visibleIds = [13, 14, 15] := by
  refine ⟨rfl, rfl, rfl⟩

end ArtworkSelection
